import Mathlib

/-!
# go-chatgpt: request validation and the Send operation

A shallow embedding of `chat.go`: the request and response records, `validate`,
`SimpleSend` and `Send`, followed by the properties of the specification.

Conventions of the embedding

* a Go `string` is a `String`, a slice is a `List` (a nil slice and an empty
  slice both have length 0), a pointer is an `Option` (`none` is nil), an `int`
  is an `Int`;
* a `float64` is a `Float64` below: the IEEE 754 values with their ordered
  comparisons, NaN included;
* a Go `error` result is an `Option` (`none` is the nil error);
* the request pointer handed to `validate` and `Send` is taken to be non-nil.
-/

namespace chatgpt

/-! ## float64 -/

/-- The values of a Go `float64`: NaN, the two infinities and the finite values.
A finite value is given by the rational number it denotes (every finite
`float64` is a rational; `+0` and `-0` denote the same number and compare
equal). -/
inductive Float64 where
  | nan
  | negInf
  | posInf
  | finite (q : ℚ)
deriving DecidableEq

namespace Float64

/-- The Go comparison `x < y` on `float64` (IEEE 754: false whenever an operand is
NaN). -/
def lt : Float64 → Float64 → Bool
  | finite a, finite b => decide (a < b)
  | negInf, finite _ => true
  | negInf, posInf => true
  | finite _, posInf => true
  | _, _ => false

/-- The Go comparison `x > y` on `float64`. -/
def gt (x y : Float64) : Bool := lt y x

/-- The constant `0`. -/
def zero : Float64 := finite 0

/-- The constant `2`. -/
def two : Float64 := finite 2

/-- The constant `-2`. -/
def negTwo : Float64 := finite (-2)

/-- Membership of a `float64` in the closed real interval `[lo, hi]`: the value is
a number (finite) and lies between the bounds. NaN and the infinities are in no
such interval. -/
def inInterval (lo hi : ℚ) : Float64 → Prop
  | finite q => lo ≤ q ∧ q ≤ hi
  | _ => False

instance (lo hi : ℚ) (x : Float64) : Decidable (inInterval lo hi x) := by
  cases x <;> unfold inInterval <;> infer_instance

end Float64

/-! ## Data model -/

/-- Go: `type ChatGPTModel string`. -/
abbrev ChatGPTModel := String

def GPT35Turbo : ChatGPTModel := "gpt-3.5-turbo"
def GPT35Turbo0301 : ChatGPTModel := "gpt-3.5-turbo-0301"
def GPT35Turbo0613 : ChatGPTModel := "gpt-3.5-turbo-0613"
def GPT35Turbo16k : ChatGPTModel := "gpt-3.5-turbo-16k"
def GPT35Turbo16k0613 : ChatGPTModel := "gpt-3.5-turbo-16k-0613"
def GPT4 : ChatGPTModel := "gpt-4"
def GPT4_0314 : ChatGPTModel := "gpt-4-0314"
def GPT4_0613 : ChatGPTModel := "gpt-4-0613"
def GPT4_32k : ChatGPTModel := "gpt-4-32k"
def GPT4_32k_0314 : ChatGPTModel := "gpt-4-32k-0314"
def GPT4_32k_0613 : ChatGPTModel := "gpt-4-32k-0613"

/-- Go: `type ChatGPTModelRole string`. -/
abbrev ChatGPTModelRole := String

def ChatGPTModelRoleUser : ChatGPTModelRole := "user"
def ChatGPTModelRoleSystem : ChatGPTModelRole := "system"
def ChatGPTModelRoleAssistant : ChatGPTModelRole := "assistant"

/-- Dynamic values held by an `interface{}` field. The dynamic types covered are
the ones encoding/json itself produces (nil, bool, float64, string,
`[]interface{}`, `map[string]interface{}`); a map is kept as its entries in key
order. -/
inductive GoAny where
  | nil
  | bool (b : Bool)
  | float64 (f : Float64)
  | string (s : String)
  | slice (xs : List GoAny)
  | map (kvs : List (String × GoAny))

structure ChatMessage where
  Role : ChatGPTModelRole
  Content : String
deriving DecidableEq

/-- The field `Type` of the source is written `Type_` (`Type` is reserved). -/
structure ResponseFormat where
  Type_ : String
deriving DecidableEq

structure StreamOptions where
  Include_Usage : Bool
deriving DecidableEq

structure FunctionFormat where
  Description : String
  Name : String
  Parameters : GoAny

/-- The field `Type` of the source is written `Type_`. -/
structure Tool where
  Type_ : String
  Function : FunctionFormat

structure ChatCompletionRequest where
  Model : ChatGPTModel
  Messages : List ChatMessage
  Temperature : Float64
  Top_P : Float64
  N : Int
  MaxTokens : Int
  PresencePenalty : Float64
  FrequencyPenalty : Float64
  User : String
  LogProbs : Bool
  Top_LogProbs : Int
  Response_Format : Option ResponseFormat
  Seed : Int
  Service_Tier : String
  Stream : Bool
  Stream_Options : Option StreamOptions
  Tools : Option (List Tool)
  Tool_Choice_Type : String
  Tool_Choice : Option Tool
  Parallel_Tool_Calls : Bool

structure ChatResponseChoice where
  Index : Int
  Message : ChatMessage
  FinishReason : String
deriving DecidableEq

structure ChatResponseUsage where
  Prompt_Tokens : Int
  Completion_Tokens : Int
  Total_Tokens : Int
deriving DecidableEq

structure ChatResponse where
  ID : String
  Object : String
  CreatedAt : Int
  Choices : List ChatResponseChoice
  Usage : ChatResponseUsage
deriving DecidableEq

/-! ## Validation errors -/

/-- Modelled from the spec: the sentinel errors of package `utils` (imported as
`chatgpt_errors`), whose declarations are not among the sources. The spec calls
them "distinct sentinel conditions", one per constraint: no messages,
unsupported model, invalid role, temperature out of range, presence-penalty out
of range, frequency-penalty out of range. -/
inductive ChatGPTError where
  | ErrNoMessages
  | ErrInvalidModel
  | ErrInvalidRole
  | ErrInvalidTemperature
  | ErrInvalidPresencePenalty
  | ErrInvalidFrequencyPenalty
deriving DecidableEq, Repr

open ChatGPTError

/-! ## validate -/

/-- The slice literal `allowedModels` of `validate`. -/
def allowedModels : List ChatGPTModel :=
  [GPT35Turbo, GPT35Turbo0301, GPT35Turbo0613, GPT35Turbo16k, GPT35Turbo16k0613,
   GPT4, GPT4_0314, GPT4_0613, GPT4_32k, GPT4_32k_0314, GPT4_32k_0613]

/-- The first loop of `validate`:
`for _, model := range allowedModels { if req.Model == model { isAllowed = true } }`
started from `isAllowed`. -/
def modelLoop (reqModel : ChatGPTModel) (isAllowed : Bool) : List ChatGPTModel → Bool
  | [] => isAllowed
  | model :: rest => modelLoop reqModel (if reqModel == model then true else isAllowed) rest

/-- The second loop of `validate`: returns `ErrInvalidRole` at the first message
whose role is none of the three constants, and falls through (`none`) otherwise. -/
def roleLoop : List ChatMessage → Option ChatGPTError
  | [] => none
  | message :: rest =>
    if message.Role != ChatGPTModelRoleUser && message.Role != ChatGPTModelRoleSystem
        && message.Role != ChatGPTModelRoleAssistant then
      some ErrInvalidRole
    else roleLoop rest

/-- Go: `func validate(req *ChatCompletionRequest) error`. -/
def validate (req : ChatCompletionRequest) : Option ChatGPTError :=
  if req.Messages.length == 0 then some ErrNoMessages
  else
    let isAllowed := modelLoop req.Model false allowedModels
    if !isAllowed then some ErrInvalidModel
    else
      match roleLoop req.Messages with
      | some err => some err
      | none =>
        if req.Temperature.lt Float64.zero || req.Temperature.gt Float64.two then
          some ErrInvalidTemperature
        else if req.PresencePenalty.lt Float64.negTwo || req.PresencePenalty.gt Float64.two then
          some ErrInvalidPresencePenalty
        else if req.FrequencyPenalty.lt Float64.negTwo || req.FrequencyPenalty.gt Float64.two then
          some ErrInvalidFrequencyPenalty
        else none

/-- A request with the given model and messages and every other field at its Go
zero value. -/
def zeroRequest (model : ChatGPTModel) (messages : List ChatMessage) : ChatCompletionRequest :=
  { Model := model, Messages := messages, Temperature := Float64.zero, Top_P := Float64.zero,
    N := 0, MaxTokens := 0, PresencePenalty := Float64.zero, FrequencyPenalty := Float64.zero,
    User := "", LogProbs := false, Top_LogProbs := 0, Response_Format := none, Seed := 0,
    Service_Tier := "", Stream := false, Stream_Options := none, Tools := none,
    Tool_Choice_Type := "", Tool_Choice := none, Parallel_Tool_Calls := false }

/-! ## The JSON wire format (`json.Marshal`) -/

/-- A JSON document, as abstract syntax. A number is given by its value. -/
inductive JSONValue where
  | null
  | bool (b : Bool)
  | number (q : ℚ)
  | string (s : String)
  | array (xs : List JSONValue)
  | object (kvs : List (String × JSONValue))

/-- Encoding of a `float64`: encoding/json rejects NaN and the infinities with an
`UnsupportedValueError`. -/
def encodeFloat : Float64 → Except String JSONValue
  | .finite q => .ok (.number q)
  | _ => .error "json: unsupported value"

mutual
/-- Encoding of the dynamic value of an `interface{}`. -/
def encodeAny : GoAny → Except String JSONValue
  | .nil => .ok .null
  | .bool b => .ok (.bool b)
  | .float64 f => encodeFloat f
  | .string s => .ok (.string s)
  | .slice xs => (encodeAnyList xs).map .array
  | .map kvs => (encodeAnyEntries kvs).map .object
/-- Encoding of the elements of a `[]interface{}`. -/
def encodeAnyList : List GoAny → Except String (List JSONValue)
  | [] => .ok []
  | x :: xs =>
    match encodeAny x with
    | .error e => .error e
    | .ok v => (encodeAnyList xs).map (v :: ·)
/-- Encoding of the entries of a `map[string]interface{}`. -/
def encodeAnyEntries : List (String × GoAny) → Except String (List (String × JSONValue))
  | [] => .ok []
  | (k, x) :: kvs =>
    match encodeAny x with
    | .error e => .error e
    | .ok v => (encodeAnyEntries kvs).map ((k, v) :: ·)
end

/-- Encoding of a `ChatMessage` (tags `role`, `content`). -/
def encodeMessage (m : ChatMessage) : JSONValue :=
  .object [("role", .string m.Role), ("content", .string m.Content)]

/-- Encoding of a `Tool` (tags `type`, `function`; inside `function` the tags
`description`, `name`, `parameters`). -/
def encodeTool (t : Tool) : Except String JSONValue :=
  (encodeAny t.Function.Parameters).map fun p =>
    .object [("type", .string t.Type_),
             ("function", .object [("description", .string t.Function.Description),
                                   ("name", .string t.Function.Name),
                                   ("parameters", p)])]

/-- Encoding of a `[]Tool`, element by element. -/
def encodeTools : List Tool → Except String (List JSONValue)
  | [] => .ok []
  | t :: ts =>
    match encodeTool t with
    | .error e => .error e
    | .ok v => (encodeTools ts).map (v :: ·)

/-- One field of a struct as encoding/json sees it: the key from the `json` tag,
the `omitempty` option, whether the value held is empty (`isEmptyValue`: false,
0, a nil pointer, a string of length 0) and the encoding of the value. -/
structure EncField where
  name : String
  omitEmpty : Bool
  isEmpty : Bool
  value : Except String JSONValue

/-- The fields of `ChatCompletionRequest` in declaration order, with their tags.
A slice is encoded as the array of its elements; the `null` that encoding/json
writes for a nil slice is not told apart from the empty array. -/
def requestFields (req : ChatCompletionRequest) : List EncField :=
  [ ⟨"model", false, req.Model.length == 0, .ok (.string req.Model)⟩,
    ⟨"messages", false, req.Messages.length == 0, .ok (.array (req.Messages.map encodeMessage))⟩,
    ⟨"temperature", true, req.Temperature == Float64.zero, encodeFloat req.Temperature⟩,
    ⟨"top_p", true, req.Top_P == Float64.zero, encodeFloat req.Top_P⟩,
    ⟨"n", true, req.N == 0, .ok (.number req.N)⟩,
    ⟨"max_tokens", true, req.MaxTokens == 0, .ok (.number req.MaxTokens)⟩,
    ⟨"presence_penalty", true, req.PresencePenalty == Float64.zero, encodeFloat req.PresencePenalty⟩,
    ⟨"frequency_penalty", true, req.FrequencyPenalty == Float64.zero,
      encodeFloat req.FrequencyPenalty⟩,
    ⟨"user", true, req.User.length == 0, .ok (.string req.User)⟩,
    ⟨"logprobs", true, req.LogProbs == false, .ok (.bool req.LogProbs)⟩,
    ⟨"top_logprobs", true, req.Top_LogProbs == 0, .ok (.number req.Top_LogProbs)⟩,
    ⟨"response_format", true, req.Response_Format.isNone,
      .ok (match req.Response_Format with
           | none => .null
           | some f => .object [("type", .string f.Type_)])⟩,
    ⟨"seed", true, req.Seed == 0, .ok (.number req.Seed)⟩,
    ⟨"service_tier", true, req.Service_Tier.length == 0, .ok (.string req.Service_Tier)⟩,
    ⟨"stream", true, req.Stream == false, .ok (.bool req.Stream)⟩,
    ⟨"stream_options", true, req.Stream_Options.isNone,
      .ok (match req.Stream_Options with
           | none => .null
           | some o => .object [("include_usage", .bool o.Include_Usage)])⟩,
    ⟨"tools", true, req.Tools.isNone,
      match req.Tools with
      | none => .ok .null
      | some ts => (encodeTools ts).map .array⟩,
    ⟨"tool_choice", true, req.Tool_Choice_Type.length == 0, .ok (.string req.Tool_Choice_Type)⟩,
    ⟨"tool_choice", true, req.Tool_Choice.isNone,
      match req.Tool_Choice with
      | none => .ok .null
      | some t => encodeTool t⟩,
    ⟨"parallel_tool_calls", true, req.Parallel_Tool_Calls == false,
      .ok (.bool req.Parallel_Tool_Calls)⟩ ]

/-- The field selection of encoding/json (`typeFields`, `dominantField`): among
several fields with the same key the least nested one wins, then the tagged
one; when two remain at the same depth, both tagged or both untagged, all fields
of that key are dropped and no error is reported. Every field of
`ChatCompletionRequest` is a direct field with a tag, so a field survives
exactly when no other field has its key. -/
def dominantFields (fields : List EncField) : List EncField :=
  fields.filter fun f => (fields.filter fun g => g.name == f.name).length == 1

/-- Encoding of the selected fields in order: a field with `omitempty` holding an
empty value is skipped; the first value that cannot be encoded fails the whole
encoding. -/
def encodeFields : List EncField → Except String (List (String × JSONValue))
  | [] => .ok []
  | f :: fs =>
    if f.omitEmpty && f.isEmpty then encodeFields fs
    else
      match f.value with
      | .error e => .error e
      | .ok v => (encodeFields fs).map ((f.name, v) :: ·)

/-- Go: `json.Marshal(req)` for a `*ChatCompletionRequest`. -/
def Marshal (req : ChatCompletionRequest) : Except String JSONValue :=
  (encodeFields (dominantFields (requestFields req))).map .object

/-! ## Send -/

/-- The non-nil errors that `Send` can return: a sentinel of package `utils`, or
an error made elsewhere (net/http, net/url, encoding/json, the transport),
identified by its message. -/
inductive GoError where
  | sentinel (e : ChatGPTError)
  | other (msg : String)
deriving DecidableEq

/-- Modelled from the spec: the client configuration declared in `client.go`,
which is not among the sources. Only the "configured base URL" is read by
`Send`. -/
structure Config where
  BaseURL : String

/-- Modelled from the spec: the client declared in `client.go`, which is not
among the sources; `Send` reads `c.config.BaseURL`. The pointers `c` and
`c.config` are taken to be non-nil. -/
structure Client where
  config : Config

/-- The bytes of a request body. `json.Marshal` returns nil bytes together with an
error, and the encoded document otherwise; the bytes of a document are
represented by the document. -/
inductive Payload where
  | empty
  | json (doc : JSONValue)

/-- What `http.NewRequest` builds from its three arguments. -/
structure HTTPRequest where
  method : String
  url : String
  body : Payload

/-- The part of `http.Response` that `Send` reads. -/
structure HTTPResponse where
  Body : String

/-- The collaborators of `Send` outside `chat.go`:
* `newRequestErr method url` is the error of `http.NewRequest` (an invalid
  method, a URL that `url.Parse` rejects), `none` when it succeeds;
* `sendRequest` is `c.sendRequest(ctx, httpReq)` of `client.go`, the transport,
  under the context of the caller;
* `decode` is `json.NewDecoder(res.Body).Decode(&chatResponse)`. -/
structure World where
  newRequestErr : String → String → Option GoError
  sendRequest : HTTPRequest → Except GoError HTTPResponse
  decode : String → Except GoError ChatResponse

/-- The calls that `Send` makes to the HTTP layer, in order. -/
inductive Event where
  | newRequest (method url : String) (body : Payload)
  | sendRequest (httpReq : HTTPRequest)

/-- The two results of `Send`, `(*ChatResponse, error)`, and the calls it made. -/
structure SendResult where
  response : Option ChatResponse
  err : Option GoError
  trace : List Event

/-- Go: `reqBytes, _ := json.Marshal(req)`; the error is discarded. -/
def reqBytes (req : ChatCompletionRequest) : Payload :=
  match Marshal req with
  | .ok doc => .json doc
  | .error _ => .empty

/-- The fixed path `endpoint` of `Send`. -/
def endpoint : String := "/chat/completions"

/-- Go: `func (c *Client) Send(ctx, req) (*ChatResponse, error)`. The trace records
the calls to `http.NewRequest` and to the transport; `httpReq.WithContext(ctx)`
and the deferred `res.Body.Close()` do not bear on the results and are not
recorded. -/
def Send (w : World) (c : Client) (req : ChatCompletionRequest) : SendResult :=
  match validate req with
  | some err => ⟨none, some (.sentinel err), []⟩
  | none =>
    let url := c.config.BaseURL ++ endpoint
    let built := Event.newRequest "POST" url (reqBytes req)
    match w.newRequestErr "POST" url with
    | some err => ⟨none, some err, [built]⟩
    | none =>
      let httpReq : HTTPRequest := ⟨"POST", url, reqBytes req⟩
      match w.sendRequest httpReq with
      | .error err => ⟨none, some err, [built, .sendRequest httpReq]⟩
      | .ok res =>
        match w.decode res.Body with
        | .error err => ⟨none, some err, [built, .sendRequest httpReq]⟩
        | .ok chatResponse => ⟨some chatResponse, none, [built, .sendRequest httpReq]⟩

/-- Go: `func (c *Client) SimpleSend(ctx, message) (*ChatResponse, error)`. -/
def SimpleSend (w : World) (c : Client) (message : String) : SendResult :=
  let req : ChatCompletionRequest := zeroRequest GPT35Turbo [⟨ChatGPTModelRoleUser, message⟩]
  Send w c req

/-! ## The constraints as the specification words them -/

/-- The eleven model identifiers that the specification enumerates. -/
def supportedModel (m : String) : Prop :=
  m ∈ ["gpt-3.5-turbo", "gpt-3.5-turbo-0301", "gpt-3.5-turbo-0613", "gpt-3.5-turbo-16k",
       "gpt-3.5-turbo-16k-0613", "gpt-4", "gpt-4-0314", "gpt-4-0613", "gpt-4-32k",
       "gpt-4-32k-0314", "gpt-4-32k-0613"]

instance (m : String) : Decidable (supportedModel m) := by
  unfold supportedModel; infer_instance

/-- A role of the specification: user, system or assistant. -/
def validRole (r : String) : Prop := r = "user" ∨ r = "system" ∨ r = "assistant"

instance (r : String) : Decidable (validRole r) := by
  unfold validRole; infer_instance

/-- Every message, at every position, has a role of the specification. -/
def allRolesValid (ms : List ChatMessage) : Prop := ∀ m ∈ ms, validRole m.Role

instance (ms : List ChatMessage) : Decidable (allRolesValid ms) := by
  unfold allRolesValid; infer_instance

/-- The errors of the constraints that a request violates, in the order messages,
model, roles, temperature, presence penalty, frequency penalty. -/
def violations (req : ChatCompletionRequest) : List ChatGPTError :=
  (if req.Messages = [] then [ErrNoMessages] else [])
  ++ (if supportedModel req.Model then [] else [ErrInvalidModel])
  ++ (if allRolesValid req.Messages then [] else [ErrInvalidRole])
  ++ (if Float64.inInterval 0 2 req.Temperature then [] else [ErrInvalidTemperature])
  ++ (if Float64.inInterval (-2) 2 req.PresencePenalty then [] else [ErrInvalidPresencePenalty])
  ++ (if Float64.inInterval (-2) 2 req.FrequencyPenalty then [] else [ErrInvalidFrequencyPenalty])

/-- The six constraints hold together. -/
def Valid (req : ChatCompletionRequest) : Prop :=
  req.Messages ≠ [] ∧ supportedModel req.Model ∧ allRolesValid req.Messages
  ∧ Float64.inInterval 0 2 req.Temperature
  ∧ Float64.inInterval (-2) 2 req.PresencePenalty
  ∧ Float64.inInterval (-2) 2 req.FrequencyPenalty

instance (req : ChatCompletionRequest) : Decidable (Valid req) := by
  unfold Valid; infer_instance

/-- The requests handed to the transport, in the order of the calls. -/
def transportRequests : List Event → List HTTPRequest
  | [] => []
  | .sendRequest httpReq :: rest => httpReq :: transportRequests rest
  | .newRequest _ _ _ :: rest => transportRequests rest

/-! ## Concrete requests, clients and collaborators -/

/-- A single user message. -/
def userHi : List ChatMessage := [⟨ChatGPTModelRoleUser, "hi"⟩]

/-- The minimal request: `gpt-3.5-turbo`, one user message, nothing else set. -/
def baseRequest : ChatCompletionRequest := zeroRequest GPT35Turbo userHi

/-- The minimal request with `Temperature` set to NaN (`math.NaN()`). -/
def nanTemperatureRequest : ChatCompletionRequest :=
  { baseRequest with Temperature := Float64.nan }

/-- The minimal request with `PresencePenalty` set to NaN. -/
def nanPresenceRequest : ChatCompletionRequest :=
  { baseRequest with PresencePenalty := Float64.nan }

/-- The minimal request with `Temperature` NaN and `PresencePenalty` 5. -/
def nanThenPenaltyRequest : ChatCompletionRequest :=
  { baseRequest with Temperature := Float64.nan, PresencePenalty := Float64.finite 5 }

/-- The minimal request with `Tool_Choice_Type` set to `"auto"`. -/
def autoToolChoiceRequest : ChatCompletionRequest :=
  { baseRequest with Tool_Choice_Type := "auto" }

/-- A function tool without parameters. -/
def sampleTool : Tool := ⟨"function", ⟨"looks up the weather", "weather", GoAny.nil⟩⟩

/-- The minimal request breaking each documented usage rule of the optional
fields: `Top_LogProbs` 25 without `LogProbs`, `Stream_Options` without `Stream`,
`Tool_Choice_Type` together with `Tool_Choice`, 129 tools. -/
def ruleBreakingRequest : ChatCompletionRequest :=
  { baseRequest with
    LogProbs := false, Top_LogProbs := 25, Stream := false, Stream_Options := some ⟨true⟩,
    Tools := some (List.replicate 129 sampleTool), Tool_Choice_Type := "auto",
    Tool_Choice := some sampleTool }

/-- A request that agrees with `ruleBreakingRequest` on the model, the roles and
the three checked numbers only. -/
def otherFieldsRequest : ChatCompletionRequest :=
  { zeroRequest GPT35Turbo [⟨ChatGPTModelRoleUser, "something else"⟩] with
    Top_P := Float64.finite 7, N := -3, MaxTokens := 12, User := "u", Seed := 42,
    Service_Tier := "auto", Parallel_Tool_Calls := true }

/-- A decoded response. -/
def sampleResponse : ChatResponse :=
  { ID := "chatcmpl-1", Object := "chat.completion", CreatedAt := 0,
    Choices := [⟨0, ⟨ChatGPTModelRoleAssistant, "hello"⟩, "stop"⟩],
    Usage := ⟨1, 1, 2⟩ }

/-- Go (net/url): `stringContainsCTLByte`, a byte below `' '` or equal to 0x7f. -/
def stringContainsCTLByte (s : String) : Bool :=
  s.toList.any fun ch => ch.toNat < 32 || ch.toNat == 127

/-- Collaborators that always succeed, except that `http.NewRequest` rejects a
URL holding a control character, as `url.Parse` does. -/
def strictURLWorld : World :=
  { newRequestErr := fun _ url =>
      if stringContainsCTLByte url then
        some (.other "net/url: invalid control character in URL")
      else none
    sendRequest := fun _ => .ok ⟨"\x7b\x7d"⟩
    decode := fun _ => .ok sampleResponse }

/-- Collaborators whose transport fails. -/
def offlineWorld : World :=
  { newRequestErr := fun _ _ => none
    sendRequest := fun _ => .error (.other "dial tcp: connection refused")
    decode := fun _ => .ok sampleResponse }

/-- A client with the usual base URL. -/
def defaultClient : Client := ⟨⟨"https://api.openai.com/v1"⟩⟩

/-- A client whose base URL ends in a line feed, as when read from a file. -/
def newlineClient : Client := ⟨⟨"https://api.openai.com/v1\n"⟩⟩

/-! ## Lemmas on the loops and the comparisons -/

theorem modelLoop_eq (reqModel : ChatGPTModel) (isAllowed : Bool) (models : List ChatGPTModel) :
    modelLoop reqModel isAllowed models = (isAllowed || decide (reqModel ∈ models)) := by
  induction models generalizing isAllowed with
  | nil => simp [modelLoop]
  | cons model rest ih =>
    rw [modelLoop, ih]
    by_cases h : reqModel = model
    · simp [h]
    · simp [h]

theorem modelLoop_allowed (reqModel : ChatGPTModel) :
    modelLoop reqModel false allowedModels = decide (supportedModel reqModel) := by
  rw [modelLoop_eq]
  rfl

theorem roleLoop_eq (ms : List ChatMessage) :
    roleLoop ms = if allRolesValid ms then none else some ErrInvalidRole := by
  induction ms with
  | nil => simp [roleLoop, allRolesValid]
  | cons m rest ih =>
    rw [roleLoop, ih]
    by_cases hm : validRole m.Role
    · have h1 : (m.Role != ChatGPTModelRoleUser && m.Role != ChatGPTModelRoleSystem
          && m.Role != ChatGPTModelRoleAssistant) = false := by
        simp only [validRole] at hm
        simp only [ChatGPTModelRoleUser, ChatGPTModelRoleSystem, ChatGPTModelRoleAssistant]
        rcases hm with h | h | h <;> simp [h]
      simp only [h1, Bool.false_eq_true, if_false]
      by_cases hr : allRolesValid rest
      · have : allRolesValid (m :: rest) := by
          intro x hx
          rcases List.mem_cons.mp hx with rfl | hx
          · exact hm
          · exact hr x hx
        simp [hr, this]
      · have : ¬ allRolesValid (m :: rest) := fun h =>
          hr (fun x hx => h x (List.mem_cons_of_mem _ hx))
        simp [hr, this]
    · have h1 : (m.Role != ChatGPTModelRoleUser && m.Role != ChatGPTModelRoleSystem
          && m.Role != ChatGPTModelRoleAssistant) = true := by
        simp only [validRole, not_or] at hm
        simp only [ChatGPTModelRoleUser, ChatGPTModelRoleSystem, ChatGPTModelRoleAssistant]
        simp [hm.1, hm.2.1, hm.2.2]
      have : ¬ allRolesValid (m :: rest) := fun h => hm (h m (List.mem_cons_self _ _))
      simp [h1, this]

theorem roleLoop_congr (ms₁ ms₂ : List ChatMessage)
    (h : ms₁.map (·.Role) = ms₂.map (·.Role)) : roleLoop ms₁ = roleLoop ms₂ := by
  induction ms₁ generalizing ms₂ with
  | nil =>
    cases ms₂ with
    | nil => rfl
    | cons m rest => simp at h
  | cons m₁ rest₁ ih =>
    cases ms₂ with
    | nil => simp at h
    | cons m₂ rest₂ =>
      simp only [List.map_cons, List.cons.injEq] at h
      rw [roleLoop, roleLoop, h.1, ih rest₂ h.2]

/-- On a value that is not NaN, the range check of `validate` fails exactly when
the value is outside the interval. -/
theorem Float64.check_eq (lo hi : ℚ) (x : Float64) (hx : x ≠ Float64.nan) :
    (x.lt (Float64.finite lo) || x.gt (Float64.finite hi))
      = decide (¬ Float64.inInterval lo hi x) := by
  cases x with
  | nan => exact absurd rfl hx
  | negInf => simp [Float64.lt, Float64.gt, Float64.inInterval]
  | posInf => simp [Float64.lt, Float64.gt, Float64.inInterval]
  | finite q =>
    simp only [Float64.lt, Float64.gt, Float64.inInterval]
    by_cases h1 : q < lo
    · have : ¬ (lo ≤ q ∧ q ≤ hi) := fun h => absurd h.1 (not_le.mpr h1)
      simp [h1, this]
    · by_cases h2 : hi < q
      · have : ¬ (lo ≤ q ∧ q ≤ hi) := fun h => absurd h.2 (not_le.mpr h2)
        simp [h1, h2, this]
      · have : lo ≤ q ∧ q ≤ hi := ⟨not_lt.mp h1, not_lt.mp h2⟩
        simp [h1, h2, this]

/-- The result of `validate` in terms of the constraints and of the three range
checks as the code makes them. -/
theorem validate_eq (req : ChatCompletionRequest) :
    validate req =
      if req.Messages = [] then some ErrNoMessages
      else if ¬ supportedModel req.Model then some ErrInvalidModel
      else if ¬ allRolesValid req.Messages then some ErrInvalidRole
      else if (req.Temperature.lt Float64.zero || req.Temperature.gt Float64.two) = true then
        some ErrInvalidTemperature
      else if (req.PresencePenalty.lt Float64.negTwo
          || req.PresencePenalty.gt Float64.two) = true then
        some ErrInvalidPresencePenalty
      else if (req.FrequencyPenalty.lt Float64.negTwo
          || req.FrequencyPenalty.gt Float64.two) = true then
        some ErrInvalidFrequencyPenalty
      else none := by
  unfold validate
  simp only [modelLoop_allowed, roleLoop_eq]
  by_cases h0 : req.Messages = []
  · simp [h0]
  · have hlen : (req.Messages.length == 0) = false := by
      simp [List.length_eq_zero, h0]
    simp only [hlen, Bool.false_eq_true, if_false, h0]
    by_cases h1 : supportedModel req.Model
    · by_cases h2 : allRolesValid req.Messages
      · simp [h1, h2]
      · simp [h1, h2]
    · simp [h1]

/-- When none of the three numbers is NaN, `validate` returns the error of the
earliest violated constraint, and nil when there is none. -/
theorem validate_eq_head_violations (req : ChatCompletionRequest)
    (hT : req.Temperature ≠ Float64.nan) (hP : req.PresencePenalty ≠ Float64.nan)
    (hF : req.FrequencyPenalty ≠ Float64.nan) :
    validate req = (violations req).head? := by
  rw [validate_eq]
  have cT := Float64.check_eq 0 2 req.Temperature hT
  have cP := Float64.check_eq (-2) 2 req.PresencePenalty hP
  have cF := Float64.check_eq (-2) 2 req.FrequencyPenalty hF
  simp only [Float64.zero, Float64.two, Float64.negTwo, cT, cP, cF, violations,
    decide_eq_true_eq]
  by_cases h0 : req.Messages = []
  · simp [h0]
  · by_cases h1 : supportedModel req.Model
    · by_cases h2 : allRolesValid req.Messages
      · by_cases h3 : Float64.inInterval 0 2 req.Temperature
        · by_cases h4 : Float64.inInterval (-2) 2 req.PresencePenalty
          · by_cases h5 : Float64.inInterval (-2) 2 req.FrequencyPenalty
            · simp [h0, h1, h2, h3, h4, h5]
            · simp [h0, h1, h2, h3, h4, h5]
          · simp [h0, h1, h2, h3, h4]
        · simp [h0, h1, h2, h3]
      · simp [h0, h1, h2]
    · simp [h0, h1]

/-- When none of the three numbers is NaN, `validate` succeeds exactly on the
requests that satisfy the six constraints. -/
theorem validate_eq_none_iff_valid (req : ChatCompletionRequest)
    (hT : req.Temperature ≠ Float64.nan) (hP : req.PresencePenalty ≠ Float64.nan)
    (hF : req.FrequencyPenalty ≠ Float64.nan) :
    validate req = none ↔ Valid req := by
  rw [validate_eq]
  have cT := Float64.check_eq 0 2 req.Temperature hT
  have cP := Float64.check_eq (-2) 2 req.PresencePenalty hP
  have cF := Float64.check_eq (-2) 2 req.FrequencyPenalty hF
  simp only [Float64.zero, Float64.two, Float64.negTwo, cT, cP, cF, Valid, decide_eq_true_eq]
  by_cases h0 : req.Messages = []
  · simp [h0]
  · by_cases h1 : supportedModel req.Model
    · by_cases h2 : allRolesValid req.Messages
      · by_cases h3 : Float64.inInterval 0 2 req.Temperature
        · by_cases h4 : Float64.inInterval (-2) 2 req.PresencePenalty
          · by_cases h5 : Float64.inInterval (-2) 2 req.FrequencyPenalty
            · simp [h0, h1, h2, h3, h4, h5]
            · simp [h0, h1, h2, h3, h4, h5]
          · simp [h0, h1, h2, h3, h4]
        · simp [h0, h1, h2, h3]
      · simp [h0, h1, h2]
    · simp [h0, h1]

/-- When none of the three numbers is NaN and exactly one constraint is violated,
`validate` returns the error of that constraint. -/
theorem validate_single_violation (req : ChatCompletionRequest) (e : ChatGPTError)
    (hT : req.Temperature ≠ Float64.nan) (hP : req.PresencePenalty ≠ Float64.nan)
    (hF : req.FrequencyPenalty ≠ Float64.nan) (h : violations req = [e]) :
    validate req = some e := by
  rw [validate_eq_head_violations req hT hP hF, h]
  rfl

/-! ## Validation -/

/-- C1, at the failing input: the request with one user message, model
gpt-3.5-turbo and `Temperature` NaN passes `validate`, although NaN does not lie
in [0, 2]; so success of `validate` is not equivalent to the six constraints. -/
theorem validate_accepts_nan_temperature :
    validate nanTemperatureRequest = none
    ∧ ¬ Float64.inInterval 0 2 nanTemperatureRequest.Temperature
    ∧ ¬ (validate nanTemperatureRequest = none ↔ Valid nanTemperatureRequest) := by
  decide

/-- C2, at the failing input: the request whose only violated constraint is the
presence penalty (NaN, outside [-2, 2]) gets no error from `validate`, instead of
`ErrInvalidPresencePenalty`. -/
theorem validate_misses_nan_presence_penalty :
    violations nanPresenceRequest = [ErrInvalidPresencePenalty]
    ∧ validate nanPresenceRequest = none := by
  decide

/-- C9, at the failing input: with `Temperature` NaN and `PresencePenalty` 5 the
earliest violated constraint is the temperature, and `validate` returns
`ErrInvalidPresencePenalty`. -/
theorem validate_skips_nan_temperature :
    (violations nanThenPenaltyRequest).head? = some ErrInvalidTemperature
    ∧ validate nanThenPenaltyRequest = some ErrInvalidPresencePenalty := by
  decide

/-- C3: for every message string and every supported model, the request with
that model, the single user message and all other fields zero passes `validate`;
the request of `SimpleSend` is such a request, so `SimpleSend` reaches
`http.NewRequest`, and an error it returns is the error of `http.NewRequest`, of
the transport or of the decoder. -/
theorem minimal_request_passes (message : String) (model : ChatGPTModel)
    (hm : supportedModel model) (w : World) (c : Client) :
    validate (zeroRequest model [⟨ChatGPTModelRoleUser, message⟩]) = none
    ∧ validate (zeroRequest GPT35Turbo [⟨ChatGPTModelRoleUser, message⟩]) = none
    ∧ SimpleSend w c message
        = Send w c (zeroRequest GPT35Turbo [⟨ChatGPTModelRoleUser, message⟩])
    ∧ (SimpleSend w c message).trace ≠ []
    ∧ ∀ e, (SimpleSend w c message).err = some e →
        w.newRequestErr "POST" (c.config.BaseURL ++ endpoint) = some e
        ∨ (∃ httpReq, w.sendRequest httpReq = .error e)
        ∨ (∃ body, w.decode body = .error e) := by
  have key : ∀ m : ChatGPTModel, supportedModel m →
      validate (zeroRequest m [⟨ChatGPTModelRoleUser, message⟩]) = none := by
    intro m hmm
    rw [validate_eq_none_iff_valid _ (by simp [zeroRequest, Float64.zero])
      (by simp [zeroRequest, Float64.zero]) (by simp [zeroRequest, Float64.zero])]
    refine ⟨by simp [zeroRequest], hmm, ?_, ?_, ?_, ?_⟩
    · intro x hx
      simp only [zeroRequest, List.mem_singleton] at hx
      subst hx
      exact Or.inl rfl
    · simp [zeroRequest, Float64.zero, Float64.inInterval]
    · simp [zeroRequest, Float64.zero, Float64.inInterval]
    · simp [zeroRequest, Float64.zero, Float64.inInterval]
  have h35 := key GPT35Turbo (by decide)
  refine ⟨key model hm, h35, rfl, ?_, ?_⟩
  · simp only [SimpleSend, Send, h35]
    cases w.newRequestErr "POST" (c.config.BaseURL ++ endpoint) with
    | some err => simp
    | none =>
      simp only
      split
      · simp
      · split <;> simp
  · intro e he
    simp only [SimpleSend, Send, h35] at he
    cases hn : w.newRequestErr "POST" (c.config.BaseURL ++ endpoint) with
    | some err =>
      simp only [hn, Option.some.injEq] at he
      exact Or.inl (by rw [he])
    | none =>
      simp only [hn] at he
      split at he
      · rename_i err hs
        simp only [Option.some.injEq] at he
        exact Or.inr (Or.inl ⟨_, by rw [← he]; exact hs⟩)
      · split at he
        · rename_i err hd
          simp only [Option.some.injEq] at he
          exact Or.inr (Or.inr ⟨_, by rw [← he]; exact hd⟩)
        · simp at he

/-- C3, at a concrete input: the message "hi" with model gpt-4-0613. -/
theorem minimal_request_passes_witness :
    supportedModel GPT4_0613
    ∧ validate (zeroRequest GPT4_0613 [⟨ChatGPTModelRoleUser, "hi"⟩]) = none
    ∧ (SimpleSend offlineWorld defaultClient "hi").trace ≠ [] :=
  have h := minimal_request_passes "hi" GPT4_0613 (by decide) offlineWorld defaultClient
  ⟨by decide, h.1, h.2.2.2.1⟩

/-! ## Send -/

/-- C4: when `validate` returns an error, `Send` returns a nil response and that
very error, and makes no call to the HTTP layer: no request is built and the
transport is not invoked. -/
theorem send_returns_validation_error (w : World) (c : Client) (req : ChatCompletionRequest)
    (e : ChatGPTError) (h : validate req = some e) :
    (Send w c req).response = none
    ∧ (Send w c req).err = some (.sentinel e)
    ∧ (Send w c req).trace = []
    ∧ transportRequests (Send w c req).trace = [] := by
  simp [Send, h, transportRequests]

/-- C4, at a concrete input: a request without messages. -/
theorem send_returns_validation_error_witness :
    validate (zeroRequest GPT35Turbo []) = some ErrNoMessages
    ∧ (Send strictURLWorld defaultClient (zeroRequest GPT35Turbo [])).err
        = some (.sentinel ErrNoMessages)
    ∧ (Send strictURLWorld defaultClient (zeroRequest GPT35Turbo [])).trace = [] :=
  have h := send_returns_validation_error strictURLWorld defaultClient
    (zeroRequest GPT35Turbo []) ErrNoMessages (by decide)
  ⟨by decide, h.2.1, h.2.2.1⟩

/-- C5 as stated fails: with a base URL ending in a line feed the request passes
`validate`, the transport would succeed on the request and the decoder would
succeed on its body, yet `Send` returns no response and the error of
`http.NewRequest`. -/
theorem send_newRequest_error_not_covered :
    validate baseRequest = none
    ∧ strictURLWorld.sendRequest
        ⟨"POST", newlineClient.config.BaseURL ++ endpoint, reqBytes baseRequest⟩ = .ok ⟨"\x7b\x7d"⟩
    ∧ strictURLWorld.decode "\x7b\x7d" = .ok sampleResponse
    ∧ (Send strictURLWorld newlineClient baseRequest).response = none
    ∧ (Send strictURLWorld newlineClient baseRequest).err
        = some (.other "net/url: invalid control character in URL") := by
  refine ⟨by decide, rfl, rfl, ?_, ?_⟩
  · decide
  · decide

/-- C5, amended: for a request that passes `validate`, `Send` returns
(nil, e) when `http.NewRequest` fails with e, and then the transport is not
invoked; otherwise (nil, e) when the transport fails with e; otherwise (nil, e)
when decoding the body fails with e; otherwise the decoded response and a nil
error. In every case exactly one of response and error is non-nil. -/
theorem send_outcome (w : World) (c : Client) (req : ChatCompletionRequest)
    (h : validate req = none) :
    (∀ e, w.newRequestErr "POST" (c.config.BaseURL ++ endpoint) = some e →
        (Send w c req).response = none ∧ (Send w c req).err = some e
        ∧ transportRequests (Send w c req).trace = [])
    ∧ (w.newRequestErr "POST" (c.config.BaseURL ++ endpoint) = none →
        (∀ e, w.sendRequest ⟨"POST", c.config.BaseURL ++ endpoint, reqBytes req⟩ = .error e →
          (Send w c req).response = none ∧ (Send w c req).err = some e)
        ∧ (∀ res e,
            w.sendRequest ⟨"POST", c.config.BaseURL ++ endpoint, reqBytes req⟩ = .ok res →
            w.decode res.Body = .error e →
            (Send w c req).response = none ∧ (Send w c req).err = some e)
        ∧ (∀ res r,
            w.sendRequest ⟨"POST", c.config.BaseURL ++ endpoint, reqBytes req⟩ = .ok res →
            w.decode res.Body = .ok r →
            (Send w c req).response = some r ∧ (Send w c req).err = none))
    ∧ ((Send w c req).response = none ↔ (Send w c req).err ≠ none) := by
  refine ⟨?_, ?_, ?_⟩
  · intro e he
    simp [Send, h, he, transportRequests]
  · intro hn
    refine ⟨?_, ?_, ?_⟩
    · intro e he
      simp [Send, h, hn, he]
    · intro res e hs hd
      simp [Send, h, hn, hs, hd]
    · intro res r hs hd
      simp [Send, h, hn, hs, hd]
  · simp only [Send, h]
    cases w.newRequestErr "POST" (c.config.BaseURL ++ endpoint) with
    | some err => simp
    | none =>
      simp only
      split
      · simp
      · split <;> simp

/-- C5 amended, at concrete inputs: a failing transport gives its error back. -/
theorem send_outcome_witness :
    validate baseRequest = none
    ∧ (Send offlineWorld defaultClient baseRequest).response = none
    ∧ (Send offlineWorld defaultClient baseRequest).err
        = some (.other "dial tcp: connection refused") :=
  ⟨by decide,
   (send_outcome offlineWorld defaultClient baseRequest (by decide)).2.1 rfl |>.1
     (.other "dial tcp: connection refused") rfl⟩

/-- C6 as stated fails: with a base URL ending in a line feed the request passes
`validate` and `Send` does not invoke the transport at all. -/
theorem send_without_transport_call :
    validate baseRequest = none
    ∧ (transportRequests (Send strictURLWorld newlineClient baseRequest).trace).length = 0 := by
  decide

/-- C6, amended: for a request that passes `validate`, when `http.NewRequest`
accepts the URL, `Send` invokes the transport exactly once, whether the
transport fails or not, with method POST, the URL `BaseURL` followed by
"/chat/completions", and, when `json.Marshal` succeeds on the request, the
encoded request as body. -/
theorem send_invokes_transport_once (w : World) (c : Client) (req : ChatCompletionRequest)
    (h : validate req = none)
    (hn : w.newRequestErr "POST" (c.config.BaseURL ++ "/chat/completions") = none) :
    ∃ body,
      transportRequests (Send w c req).trace
        = [⟨"POST", c.config.BaseURL ++ "/chat/completions", body⟩]
      ∧ ∀ doc, Marshal req = .ok doc → body = .json doc := by
  refine ⟨reqBytes req, ?_, ?_⟩
  · have hn2 : w.newRequestErr "POST" (c.config.BaseURL ++ endpoint) = none := hn
    simp only [Send, h, hn2]
    split
    · rfl
    · split <;> rfl
  · intro doc hdoc
    simp [reqBytes, hdoc]

/-- C6 amended, at concrete inputs: the failing transport is invoked once. -/
theorem send_invokes_transport_once_witness :
    validate baseRequest = none
    ∧ offlineWorld.newRequestErr "POST"
        (defaultClient.config.BaseURL ++ "/chat/completions") = none
    ∧ ∃ body,
        transportRequests (Send offlineWorld defaultClient baseRequest).trace
          = [⟨"POST", "https://api.openai.com/v1" ++ "/chat/completions", body⟩]
        ∧ ∀ doc, Marshal baseRequest = .ok doc → body = .json doc :=
  ⟨by decide, rfl, send_invokes_transport_once offlineWorld defaultClient baseRequest
    (by decide) rfl⟩

/-! ## Serialization -/

/-- C7, at the failing input: the valid request with `Tool_Choice_Type` "auto"
is encoded without any `tool_choice` key, to the same document as the valid
request whose `Tool_Choice_Type` is empty; no decoder gives both requests back. -/
theorem marshal_drops_tool_choice :
    validate autoToolChoiceRequest = none
    ∧ validate baseRequest = none
    ∧ autoToolChoiceRequest.Tool_Choice_Type = "auto"
    ∧ baseRequest.Tool_Choice_Type = ""
    ∧ Marshal autoToolChoiceRequest
        = .ok (.object [("model", .string "gpt-3.5-turbo"),
            ("messages", .array [.object [("role", .string "user"),
              ("content", .string "hi")]])])
    ∧ Marshal autoToolChoiceRequest = Marshal baseRequest
    ∧ ∀ decode : Except String JSONValue → Option ChatCompletionRequest,
        ¬ (decode (Marshal autoToolChoiceRequest) = some autoToolChoiceRequest
           ∧ decode (Marshal baseRequest) = some baseRequest) := by
  have hm : Marshal autoToolChoiceRequest = Marshal baseRequest := rfl
  refine ⟨by decide, by decide, rfl, rfl, rfl, hm, ?_⟩
  intro decode hd
  rw [hm, hd.2] at hd
  have := congrArg ChatCompletionRequest.Tool_Choice_Type (Option.some.inj hd.1)
  exact absurd this (by decide)

/-! ## Fields that validation reads -/

/-- C10: two requests that agree on the model, on the roles of their messages in
order (hence on their number), on the temperature and on the two penalties get
the same result from `validate`; and the request that breaks every documented
usage rule of the other fields is accepted. -/
theorem validate_depends_on_checked_fields (r₁ r₂ : ChatCompletionRequest)
    (hModel : r₁.Model = r₂.Model)
    (hRoles : r₁.Messages.map (·.Role) = r₂.Messages.map (·.Role))
    (hT : r₁.Temperature = r₂.Temperature)
    (hP : r₁.PresencePenalty = r₂.PresencePenalty)
    (hF : r₁.FrequencyPenalty = r₂.FrequencyPenalty) :
    validate r₁ = validate r₂ ∧ validate ruleBreakingRequest = none := by
  refine ⟨?_, by decide⟩
  have hlen : r₁.Messages.length = r₂.Messages.length := by
    have := congrArg List.length hRoles
    simpa using this
  unfold validate
  rw [hModel, hT, hP, hF, hlen, roleLoop_congr _ _ hRoles]

/-- C10, at concrete inputs: the rule-breaking request and a request with other
content and other optional fields. -/
theorem validate_depends_on_checked_fields_witness :
    ruleBreakingRequest.Model = otherFieldsRequest.Model
    ∧ ruleBreakingRequest.Messages ≠ otherFieldsRequest.Messages
    ∧ validate ruleBreakingRequest = validate otherFieldsRequest :=
  ⟨rfl, by decide,
   (validate_depends_on_checked_fields ruleBreakingRequest otherFieldsRequest
      rfl rfl rfl rfl rfl).1⟩

end chatgpt
